import Mathlib

/-!
Shallow embedding of the HRED dialogue model core:
src/quicknlp/models/hred.py and src/quicknlp/modules/attention_decoder.py.

Tensors of shape [1, bs, d] are modelled by their [bs, d] content (the
leading unsqueeze and the [0] slice are inverse reshapes); concrete
tensors, where needed, are nested lists over ℤ.  Stateful Python code is
modelled by explicit state passing: the mutable field
self.decoder_layer.hidden is threaded as an explicit argument and result.
Definitions marked "Modelled from the spec:" stand for code of this
repository that is not under src/ (basic_decoder.py, hred_encoder.py,
the RNNLayers module); they follow the words of spec.md.
-/

namespace QuickNLP

/-- One decoder recurrent layer together with its dropout hook, as iterated
by AttentionDecoder._rnn_step over zip(decoder_layer.layers,
decoder_layer.dropouths).  The call rnn(output, h) returns the layer output
and the new per-layer state. -/
structure RnnLayer (α σ : Type) where
  rnn : α → σ → α × σ
  dropFn : α → α

/-- AttentionDecoder._rnn_step (attention_decoder.py lines 30-41), the loop
body: for each layer_index, run the layer on the current output and
hidden[layer_index], collect new_h into new_hidden, and apply dropout to the
output of every layer except the last (layer_index != nlayers - 1).  Returns
(outputs, new_hidden); the source stores new_hidden into
self.decoder_layer.hidden, which the caller of this function does. -/
def rnnStepAux (nlayers : ℕ) {α σ : Type} :
    ℕ → List (RnnLayer α σ) → List σ → α → List α × List σ
  | _, [], _, _ => ([], [])
  | _, _ :: _, [], _ => ([], [])
  | layerIndex, l :: ls, h :: hs, output =>
    let r := l.rnn output h
    let output1 := if layerIndex ≠ nlayers - 1 then l.dropFn r.1 else r.1
    let rest := rnnStepAux nlayers (layerIndex + 1) ls hs output1
    (output1 :: rest.1, r.2 :: rest.2)

/-- AttentionDecoder._rnn_step, entry point: layer_index starts at 0. -/
def rnnStep (nlayers : ℕ) {α σ : Type} (layers : List (RnnLayer α σ))
    (output : α) (hidden : List σ) : List α × List σ :=
  rnnStepAux nlayers 0 layers hidden output

/-- The pieces of an AttentionDecoder instance used by _train_forward and
_rnn_step: the token embedding layer, the attention context
projection_layer.get_attention_output, torch.cat along the feature axis,
the stacked recurrent layers with their dropouts, and the vocabulary
projection_layer. -/
structure AttnDecoder (τ α σ β : Type) where
  embedding_layer : τ → α
  get_attention_output : α → α
  cat : α → α → α
  layers : List (RnnLayer α σ)
  nlayers : ℕ
  projection_layer : α → β

/-- The per-step input construction of AttentionDecoder._train_forward
(attention_decoder.py line 16): torch.cat([step, get_attention_output(step)],
dim = -1). -/
def stepInput {τ α σ β : Type} (d : AttnDecoder τ α σ β) (e : α) : α :=
  d.cat e (d.get_attention_output e)

/-- The loop of AttentionDecoder._train_forward (attention_decoder.py lines
14-21) over the embedded steps.  The first List σ argument is the hidden
argument of _train_forward: the source passes this same unmodified value to
_rnn_step at every iteration.  The second List σ argument models the mutable
field self.decoder_layer.hidden, overwritten by each _rnn_step call; it is
returned alongside the collected projection outputs.  outputs[-1] of
_rnn_step is List.getLastD. -/
def trainForwardLoop {τ α σ β : Type} [Inhabited α] (d : AttnDecoder τ α σ β)
    (hidden : List σ) : List α → List σ → List β × List σ
  | [], dlHidden => ([], dlHidden)
  | e :: es, _dlHidden =>
    let r := rnnStep d.nlayers d.layers (stepInput d e) hidden
    let rest := trainForwardLoop d hidden es r.2
    (d.projection_layer (r.1.getLastD default) :: rest.1, rest.2)

/-- AttentionDecoder._train_forward (attention_decoder.py lines 11-22):
embed the inputs, then loop.  The constraints parameter is accepted and
never read, exactly as in the source.  Returns the concatenated per-step
projection outputs together with the final value of
self.decoder_layer.hidden. -/
def trainForward {τ α σ β γ : Type} [Inhabited α] (d : AttnDecoder τ α σ β)
    (inputs : List τ) (hidden dlHidden : List σ) (constraints : Option γ) :
    List β × List σ :=
  trainForwardLoop d hidden (inputs.map d.embedding_layer) dlHidden

/-- Modelled from the spec: section 4.3 step 4 says the teacher-forced path
updates DecoderState in place for the next step, so the state produced at
step t-1 is the prior state of step t.  This is the state-threaded variant
of trainForwardLoop, for comparison with the source behaviour. -/
def trainForwardThreadedLoop {τ α σ β : Type} [Inhabited α]
    (d : AttnDecoder τ α σ β) : List α → List σ → List β
  | [], _ => []
  | e :: es, hidden =>
    let r := rnnStep d.nlayers d.layers (stepInput d e) hidden
    d.projection_layer (r.1.getLastD default) :: trainForwardThreadedLoop d es r.2

/-- Modelled from the spec: the state-threaded teacher-forced forward. -/
def trainForwardThreaded {τ α σ β : Type} [Inhabited α] (d : AttnDecoder τ α σ β)
    (inputs : List τ) (hidden : List σ) : List β :=
  trainForwardThreadedLoop d (inputs.map d.embedding_layer) hidden

/-- Modelled from the spec: section 4.3 step 2 says that when a
ConstraintVector is present it is concatenated into each step input together
with the attention context.  This variant performs that concatenation; it
exists only for comparison with trainForward, which does not. -/
def trainForwardConstrainedLoop {τ α σ β : Type} [Inhabited α]
    (d : AttnDecoder τ α σ β) (hidden : List σ) (c : α) :
    List α → List σ → List β × List σ
  | [], dlHidden => ([], dlHidden)
  | e :: es, _dlHidden =>
    let r := rnnStep d.nlayers d.layers (d.cat (d.cat e c) (d.get_attention_output e)) hidden
    let rest := trainForwardConstrainedLoop d hidden c es r.2
    (d.projection_layer (r.1.getLastD default) :: rest.1, rest.2)

/-- Modelled from the spec: teacher-forced forward with the constraint
vector concatenated into every step input. -/
def trainForwardConstrained {τ α σ β : Type} [Inhabited α]
    (d : AttnDecoder τ α σ β) (c : α) (inputs : List τ)
    (hidden dlHidden : List σ) : List β × List σ :=
  trainForwardConstrainedLoop d hidden c (inputs.map d.embedding_layer) dlHidden

/-- A one-layer decoder over ℤ used to evaluate the embeddings on concrete
inputs: the recurrent cell adds its input to its state and outputs the sum,
dropout and projection are the identity, the attention context is 0, and
concatenation is modelled by addition so that every concatenated component
contributes to the result. -/
def demoLayer : RnnLayer ℤ ℤ :=
  { rnn := fun x h => (x + h, x + h), dropFn := id }

/-- Concrete AttnDecoder instance built from demoLayer. -/
def demoDecoder : AttnDecoder ℤ ℤ ℤ ℤ :=
  { embedding_layer := id
    get_attention_output := fun _ => 0
    cat := fun a b => a + b
    layers := [demoLayer]
    nlayers := 1
    projection_layer := id }

/-- HRED.decoding (hred.py lines 142-150), the beam-count selection: in
training mode nb = 1 if pr_force < 1 else 0; otherwise nb is the num_beams
argument of the caller. -/
def decodingNumBeams (training : Bool) (prForce : ℚ) (numBeams : ℕ) : ℕ :=
  if training then (if prForce < 1 then 1 else 0) else numBeams

/-- HRED constructor (hred.py line 59): self.pr_force = 1.0. -/
def initPrForce : ℚ := 1

/-- HRED.decoding (hred.py line 149) for num_beams == 0: predictions =
outputs_dec[:decoder_inputs.size(0)], a prefix of the teacher-forced decoder
output of length decoder_inputs.size(0). -/
def decodingPredictions {τ α σ β γ : Type} [Inhabited α] (d : AttnDecoder τ α σ β)
    (decoderInputs : List τ) (hidden dlHidden : List σ) (constraints : Option γ) :
    List β :=
  (trainForward d decoderInputs hidden dlHidden constraints).1.take decoderInputs.length

/-- A [bs, v] matrix: bs rows, each of length v.  Used to state the shape of
one step of vocabulary logits. -/
def isMatrix (bs v : ℕ) (m : List (List ℤ)) : Prop :=
  m.length = bs ∧ ∀ r ∈ m, r.length = v

/-- Concrete AttnDecoder whose projection produces a 1 x 1 logits matrix,
used to evaluate shape statements on concrete input. -/
def demoDecoderM : AttnDecoder ℤ ℤ ℤ (List (List ℤ)) :=
  { embedding_layer := id
    get_attention_output := fun _ => 0
    cat := fun a b => a + b
    layers := [demoLayer]
    nlayers := 1
    projection_layer := fun a => [[a]] }

/-- First index of the maximum of a list of logits, auxiliary: carries the
current best index and value; a later entry replaces the best only when
strictly greater, so exact ties keep the first index. -/
def argmaxIdxAux : List ℤ → ℕ → ℕ → ℤ → ℕ
  | [], _, best, _ => best
  | x :: xs, i, best, bestV =>
    if bestV < x then argmaxIdxAux xs (i + 1) i x
    else argmaxIdxAux xs (i + 1) best bestV

/-- First index of the maximum of a list of logits (numeric argmax, first
index on exact ties, spec section 4.3). -/
def argmaxIdx : List ℤ → ℕ
  | [] => 0
  | x :: xs => argmaxIdxAux xs 1 0 x

/-- Modelled from the spec: the per-step transition of the basic Decoder
(basic_decoder.py is not under src/): consume an input token and the current
recurrent state, produce the vocabulary logits of this step and the next
state. -/
structure SpecDecoder (σ : Type) where
  step : ℕ → σ → List ℤ × σ

/-- Modelled from the spec: the scheduled-sampling input policy of the
training decoder (spec section 4.3 step 1, basic_decoder.py not under src/):
the first step uses the given ground-truth token; every later step uses,
with probability pr_force, the ground-truth token of the previous position
and otherwise the argmax prediction of the previous step.  The draw for each
step is taken from draws, uniform in [0, 1); "with probability p" is
modelled as draw < p.  Returns the list of input tokens actually consumed,
one per target position. -/
def scheduledInputs {σ : Type} (d : SpecDecoder σ) (prForce : ℚ) :
    List ℕ → List ℚ → Option ℕ → σ → List ℕ
  | [], _, _, _ => []
  | gt :: gts, draws, prev, s =>
    let input := match prev with
      | none => gt
      | some p => if draws.headI < prForce then gt else p
    let r := d.step input s
    input :: scheduledInputs d prForce gts draws.tail (some (argmaxIdx r.1)) r.2

/-- Modelled from the spec: generation-mode input selection (spec section
4.3, beam path with one beam): after the first token, every step consumes
the argmax prediction of the previous step, never the ground truth. -/
def greedyInputs {σ : Type} (d : SpecDecoder σ) :
    List ℕ → Option ℕ → σ → List ℕ
  | [], _, _ => []
  | gt :: gts, prev, s =>
    let input := match prev with
      | none => gt
      | some p => p
    let r := d.step input s
    input :: greedyInputs d gts (some (argmaxIdx r.1)) r.2

/-- Concrete SpecDecoder: the state counts the consumed tokens and the
logits prefer the successor of the input token. -/
def demoSpecDecoder : SpecDecoder ℤ :=
  { step := fun t s => ([s, (t : ℤ) + 1, (t : ℤ)], s + 1) }

/-- AttentionDecoder._beam_forward key replication (attention_decoder.py
line 27): keys.repeat(1, num_beams, 1) tiles the batch (middle) axis of the
[sl, bs, ed] key tensor num_beams times, concatenating num_beams copies of
each per-position [bs, ed] slice along its row axis. -/
def repeatDim1 (k : ℕ) (t : List (List (List ℤ))) : List (List (List ℤ)) :=
  t.map fun m => (List.replicate k m).flatten

/-- AttentionDecoder._beam_forward (attention_decoder.py lines 24-28), the
keys component: if projection_layer.keys is not None and num_beams > 0, the
stored keys are replaced by their num_beams-fold batch replication, once,
before delegating to the base beam search. -/
def beamForwardKeys (numBeams : ℕ) (keys : Option (List (List (List ℤ)))) :
    Option (List (List (List ℤ))) :=
  match keys with
  | none => none
  | some ks => if 0 < numBeams then some (repeatDim1 numBeams ks) else some ks

/-- Modelled from the spec: the base Decoder beam loop (basic_decoder.py not
under src/) advances the beams step by step and does not touch the stored
attention keys again — spec section 4.4 calls the replication a one-time
side effect of entering beam mode, not repeated every step.  Only the keys
component of the loop state is modelled. -/
def baseBeamLoopKeys : ℕ → Option (List (List (List ℤ))) → Option (List (List (List ℤ)))
  | 0, keys => keys
  | n + 1, keys => baseBeamLoopKeys n keys

/-- The keys component of a full AttentionDecoder._beam_forward call: the
one-time replication followed by the base beam loop running for a given
number of steps. -/
def attnBeamForwardKeys (numBeams steps : ℕ)
    (keys : Option (List (List (List ℤ)))) : Option (List (List (List ℤ))) :=
  baseBeamLoopKeys steps (beamForwardKeys numBeams keys)

/-- HRED.map_session_hidden_state_to_decoder_init_state (hred.py lines
124-136), branch cell_type == "gru": state = decoder.hidden, then state[0] =
decoder_state_linear(last_output); constraints = last_output when
session_constraint else None.  The decoder per-layer state is a single
tensor. -/
def mapSessionStateGru {δ : Type} (linear : δ → δ) (sessionConstraint : Bool)
    (decoderHidden : List δ) (lastOutput : δ) : List δ × Option δ :=
  (decoderHidden.set 0 (linear lastOutput),
   if sessionConstraint then some lastOutput else none)

/-- HRED.map_session_hidden_state_to_decoder_init_state (hred.py lines
124-136), the non-gru branch: the decoder per-layer state is a (hidden,
cell) pair; state[0] = (decoder_state_linear(last_output[0]),
decoder_state_linear(last_output[1])); constraints = last_output[0] when
session_constraint else None. -/
def mapSessionStateLstm {δ : Type} (linear : δ → δ) (sessionConstraint : Bool)
    (decoderHidden : List (δ × δ)) (lastOutput : δ × δ) :
    List (δ × δ) × Option δ :=
  (decoderHidden.set 0 (linear lastOutput.1, linear lastOutput.2),
   if sessionConstraint then some lastOutput.1 else none)

/-- The two recurrent cell state shapes of the model: a single tensor for
the gru cell, a paired (hidden, cell) state otherwise. -/
inductive CellKind where
  | gruKind : CellKind
  | pairedKind : CellKind
deriving DecidableEq

/-- Modelled from the spec: the recurrent cell selection of the RNNLayers
module (not under src/) branches only on the two known cell types and
defaults every unknown type to the paired-state path (spec section 7,
UnsupportedCellType, describing current behaviour).  This matches the only
cell-type branch under src/, hred.py lines 128-135, which tests
cell_type == "gru" and treats everything else as paired. -/
def rnnCellKind (cellType : String) : CellKind :=
  if cellType = "gru" then CellKind.gruKind else CellKind.pairedKind

/-- HRED constructor cell-type handling (hred.py lines 22-61): the cell_type
string is stored and passed to the encoder and decoder recurrent stacks; no
validation is performed and no error is raised for an unrecognized value, so
construction always succeeds and yields the cell kind chosen by
rnnCellKind. -/
def hredInit (cellType : String) : Except String CellKind :=
  Except.ok (rnnCellKind cellType)

/-- The state and weights of an HRED instance that HRED.forward touches:
encInit and decInit are the learned initial states (functions of the batch
size only), encode is HierarchicalEncoder.forward from a given encoder
state, linear is decoder_state_linear, decode is the decoder run from a
given initial state; encoderState and decoderHidden are the mutable
recurrent states held on the instance between calls. -/
structure HREDSim (δ : Type) where
  encInit : ℕ → δ
  decInit : ℕ → List δ
  encode : δ → List (List (List ℤ)) → List δ × δ
  linear : δ → δ
  sessionConstraint : Bool
  decode : List δ → Option δ → List (List ℤ) → ℕ → List δ
  encoderState : δ
  decoderHidden : List δ

/-- HRED.reset_encoders (hred.py lines 138-140), with the reset semantics
modelled from the spec: reset(bs) reinitializes all recurrent sub-states to
the learned or zero initial state, a function of the batch size only (spec
section 4.1; encoder.reset and decoder.reset are not under src/). -/
def resetEncoders {δ : Type} (m : HREDSim δ) (bs : ℕ) : HREDSim δ :=
  { m with encoderState := m.encInit bs, decoderHidden := m.decInit bs }

/-- HRED.forward (hred.py lines 113-122), the state flow: read the batch
size from encoder_inputs, reset the encoder and decoder states for the new
batch, encode, bridge the session summary into the decoder initial state
(gru branch), and decode. -/
def hredForward {δ : Type} (m : HREDSim δ)
    (encoderInputs : List (List (List ℤ))) (decoderInputs : List (List ℤ))
    (numBeams : ℕ) : List δ :=
  let bs := encoderInputs.headI.headI.length
  let m1 := resetEncoders m bs
  let r := m1.encode m1.encoderState encoderInputs
  let sc := mapSessionStateGru m1.linear m1.sessionConstraint m1.decoderHidden r.2
  m1.decode sc.1 sc.2 decoderInputs numBeams

/-- The teacher-forced loop emits exactly one projected output per embedded
input step. -/
theorem trainForwardLoop_length {τ α σ β : Type} [Inhabited α]
    (d : AttnDecoder τ α σ β) (hidden : List σ) :
    ∀ (es : List α) (dl : List σ),
      (trainForwardLoop d hidden es dl).1.length = es.length := by
  intro es
  induction es with
  | nil => intro dl; rfl
  | cons e es ih => intro dl; simp [trainForwardLoop, ih]

/-- Every output of the teacher-forced loop is a projection_layer image. -/
theorem trainForwardLoop_mem {τ α σ β : Type} [Inhabited α]
    (d : AttnDecoder τ α σ β) (hidden : List σ) :
    ∀ (es : List α) (dl : List σ) (b : β),
      b ∈ (trainForwardLoop d hidden es dl).1 → ∃ a, b = d.projection_layer a := by
  intro es
  induction es with
  | nil => intro dl b hb; simp [trainForwardLoop] at hb
  | cons e es ih =>
    intro dl b hb
    simp only [trainForwardLoop, List.mem_cons] at hb
    rcases hb with h | h
    · exact ⟨_, h⟩
    · exact ih _ b h

/-- Flattening k copies of a list multiplies its length by k. -/
theorem replicate_flatten_length {γ : Type} (k : ℕ) (m : List γ) :
    ((List.replicate k m).flatten).length = k * m.length := by
  induction k with
  | zero => simp
  | succ n ih => simp [List.replicate_succ, ih, Nat.succ_mul, Nat.add_comm]

/-- The base beam loop leaves the stored keys unchanged at every step. -/
theorem baseBeamLoopKeys_eq (steps : ℕ) (keys : Option (List (List (List ℤ)))) :
    baseBeamLoopKeys steps keys = keys := by
  induction steps with
  | zero => rfl
  | succ n ih => simpa [baseBeamLoopKeys] using ih

/-- With pr_force = 0 and nonnegative draws the scheduled-sampling loop
consumes exactly the generation-mode inputs. -/
theorem scheduled_eq_greedy {σ : Type} (d : SpecDecoder σ) :
    ∀ (gts : List ℕ) (draws : List ℚ), (∀ q ∈ draws, 0 ≤ q) →
      ∀ (prev : Option ℕ) (s : σ),
        scheduledInputs d 0 gts draws prev s = greedyInputs d gts prev s := by
  intro gts
  induction gts with
  | nil => intro draws _ prev s; rfl
  | cons gt gts ih =>
    intro draws h prev s
    have hnd : ¬ draws.headI < (0 : ℚ) := by
      cases draws with
      | nil => exact not_lt.mpr (le_of_eq rfl)
      | cons q qs => exact not_lt.mpr (h q (List.mem_cons_self q qs))
    have htail : ∀ q ∈ draws.tail, 0 ≤ q := fun q hq => h q (List.mem_of_mem_tail hq)
    cases prev with
    | none =>
      simp only [scheduledInputs, greedyInputs]
      rw [ih draws.tail htail]
    | some p =>
      simp only [scheduledInputs, greedyInputs, if_neg hnd]
      rw [ih draws.tail htail]

/-- C1: the claim says that in teacher-forced training mode the output of
step t is computed from the DecoderState produced at step t-1.  In
AttentionDecoder._train_forward the loop passes the unmodified hidden
argument to _rnn_step at every step, so on the concrete two-step input the
second output equals the first (both computed from the initial state [10]),
whereas the state-threaded behaviour the claim describes yields 12 at the
second step.  The recurrent state is stored into decoder_layer.hidden but
never advanced within the loop: the code contradicts the stated property. -/
theorem c1_train_forward_hidden_not_advanced :
    (trainForward demoDecoder [(1 : ℤ), 1] [(10 : ℤ)] [(10 : ℤ)] (none : Option ℤ)).1 = [11, 11] ∧
    trainForwardThreaded demoDecoder [(1 : ℤ), 1] [(10 : ℤ)] = [11, 12] ∧
    (trainForward demoDecoder [(1 : ℤ), 1] [(10 : ℤ)] [(10 : ℤ)] (none : Option ℤ)).1 ≠
      trainForwardThreaded demoDecoder [(1 : ℤ), 1] [(10 : ℤ)] :=
  ⟨rfl, rfl, by decide⟩

/-- C2: in training mode with pr_force = 0, every target step after the
first consumes the argmax prediction of the previous step, never the
ground-truth token: the scheduled-sampling input sequence coincides with the
generation-mode (greedy) input sequence, for any nonnegative random draws. -/
theorem c2_pr_force_zero_uses_model_predictions {σ : Type} (d : SpecDecoder σ)
    (gts : List ℕ) (draws : List ℚ) (hdraws : ∀ q ∈ draws, 0 ≤ q)
    (prev : Option ℕ) (s : σ) :
    scheduledInputs d 0 gts draws prev s = greedyInputs d gts prev s :=
  scheduled_eq_greedy d gts draws hdraws prev s

/-- Witness for C2 at a concrete decoder, targets and draws. -/
theorem c2_pr_force_zero_witness :
    (∀ q ∈ [(0 : ℚ), 1], 0 ≤ q) ∧
    scheduledInputs demoSpecDecoder 0 [3, 4, 5] [(0 : ℚ), 1] none 0 =
      greedyInputs demoSpecDecoder [3, 4, 5] none 0 :=
  ⟨by norm_num, c2_pr_force_zero_uses_model_predictions demoSpecDecoder [3, 4, 5]
      [(0 : ℚ), 1] (by norm_num) none 0⟩

/-- C3 counterexample: the claim says the constraint vector is concatenated
into the decoder input at every teacher-forced step; on a concrete one-step
input the source behaviour (trainForward) differs from the concatenating
behaviour the claim describes (trainForwardConstrained), and the source
output is unchanged when the constraint changes from 5 to 7. -/
theorem c3_constraint_not_concatenated_cx :
    (trainForward demoDecoder [(1 : ℤ)] [(10 : ℤ)] [(10 : ℤ)] (some (5 : ℤ))).1 ≠
      (trainForwardConstrained demoDecoder 5 [(1 : ℤ)] [(10 : ℤ)] [(10 : ℤ)]).1 ∧
    trainForward demoDecoder [(1 : ℤ)] [(10 : ℤ)] [(10 : ℤ)] (some (5 : ℤ)) =
      trainForward demoDecoder [(1 : ℤ)] [(10 : ℤ)] [(10 : ℤ)] (some 7) :=
  ⟨by decide, rfl⟩

/-- C3 (amended): in the attention decoder teacher-forced path the
constraints argument has no effect at all: _train_forward accepts it and
never reads it, so the output is identical for any two constraint values;
each step input is the embedded token concatenated with the attention
context only. -/
theorem c3_constraints_argument_unused {τ α σ β γ : Type} [Inhabited α]
    (d : AttnDecoder τ α σ β) (inputs : List τ) (hidden dlHidden : List σ)
    (c c' : Option γ) :
    trainForward d inputs hidden dlHidden c = trainForward d inputs hidden dlHidden c' := rfl

/-- C4: in training mode the beam count handed to the decoder is 1 when
pr_force < 1 and 0 otherwise, and does not depend on the num_beams argument
of the caller. -/
theorem c4_training_num_beams_from_pr_force_only (prForce : ℚ)
    (numBeams numBeams' : ℕ) :
    decodingNumBeams true prForce numBeams = (if prForce < 1 then 1 else 0) ∧
    decodingNumBeams true prForce numBeams = decodingNumBeams true prForce numBeams' :=
  ⟨rfl, rfl⟩

/-- C5: a teacher-forced forward with num_beams = 0 returns exactly one
logits step per decoder input position, and when the projection layer
produces [bs, v] matrices every returned step is a [bs, v] matrix, so the
predictions are shaped [T, batch, vocabulary]. -/
theorem c5_teacher_forced_predictions_shape {τ α σ γ : Type} [Inhabited α]
    (d : AttnDecoder τ α σ (List (List ℤ))) (bs v : ℕ)
    (hproj : ∀ a, isMatrix bs v (d.projection_layer a))
    (inputs : List τ) (hidden dlHidden : List σ) (constraints : Option γ) :
    (decodingPredictions d inputs hidden dlHidden constraints).length = inputs.length ∧
    ∀ p ∈ decodingPredictions d inputs hidden dlHidden constraints, isMatrix bs v p := by
  have hlen : (trainForward d inputs hidden dlHidden constraints).1.length = inputs.length := by
    simpa [trainForward] using
      trainForwardLoop_length d hidden (inputs.map d.embedding_layer) dlHidden
  constructor
  · simp [decodingPredictions, List.length_take, hlen]
  · intro p hp
    have hp1 : p ∈ (trainForward d inputs hidden dlHidden constraints).1 :=
      List.take_subset _ _ hp
    obtain ⟨a, rfl⟩ :=
      trainForwardLoop_mem d hidden (inputs.map d.embedding_layer) dlHidden p hp1
    exact hproj a

/-- Witness for C5 at a concrete two-step input with a 1 x 1 projection. -/
theorem c5_teacher_forced_witness :
    (∀ a : ℤ, isMatrix 1 1 (demoDecoderM.projection_layer a)) ∧
    ((decodingPredictions demoDecoderM [(1 : ℤ), 1] [(10 : ℤ)] [(10 : ℤ)]
        (none : Option ℤ)).length = [(1 : ℤ), 1].length ∧
      ∀ p ∈ decodingPredictions demoDecoderM [(1 : ℤ), 1] [(10 : ℤ)] [(10 : ℤ)]
        (none : Option ℤ), isMatrix 1 1 p) :=
  ⟨fun a => by simp [demoDecoderM, isMatrix],
   c5_teacher_forced_predictions_shape demoDecoderM 1 1
     (fun a => by simp [demoDecoderM, isMatrix]) [(1 : ℤ), 1] [(10 : ℤ)] [(10 : ℤ)]
     (none : Option ℤ)⟩

/-- C6: on entering beam mode with K > 0 beams the stored keys are replaced,
exactly once, by their K-fold batch replication — after any number of later
beam steps the keys are still exactly that single replication — and every
per-position key slice then has original_batch * K rows. -/
theorem c6_keys_replicated_once (ks : List (List (List ℤ))) (bs k steps : ℕ)
    (hk : 0 < k) (hbs : ∀ m ∈ ks, m.length = bs) :
    attnBeamForwardKeys k steps (some ks) = some (repeatDim1 k ks) ∧
    ∀ m ∈ repeatDim1 k ks, m.length = bs * k := by
  constructor
  · simp [attnBeamForwardKeys, beamForwardKeys, hk, baseBeamLoopKeys_eq]
  · intro m hm
    simp only [repeatDim1, List.mem_map] at hm
    obtain ⟨a, ha, rfl⟩ := hm
    rw [replicate_flatten_length, hbs a ha, Nat.mul_comm]

/-- Witness for C6: one key position with two batch rows, three beams, five
later steps. -/
theorem c6_keys_replication_witness :
    0 < 3 ∧ (∀ m ∈ [[[(1 : ℤ)], [2]]], m.length = 2) ∧
    (attnBeamForwardKeys 3 5 (some [[[(1 : ℤ)], [2]]]) =
        some (repeatDim1 3 [[[(1 : ℤ)], [2]]]) ∧
      ∀ m ∈ repeatDim1 3 [[[(1 : ℤ)], [2]]], m.length = 2 * 3) :=
  ⟨by decide, by decide,
   c6_keys_replicated_once [[[(1 : ℤ)], [2]]] 2 3 5 (by decide) (by decide)⟩

/-- C7: the state bridge writes only entry 0 of the decoder per-layer state
list; for every index i at least 1, both the gru branch and the paired
branch leave the entry unchanged. -/
theorem c7_bridge_writes_only_layer_zero {δ : Type} (linear : δ → δ) (sc : Bool)
    (hidden : List δ) (lastOutput : δ) (hiddenL : List (δ × δ))
    (lastOutputL : δ × δ) (i : ℕ) (hi : 1 ≤ i) :
    ((mapSessionStateGru linear sc hidden lastOutput).1)[i]? = hidden[i]? ∧
    ((mapSessionStateLstm linear sc hiddenL lastOutputL).1)[i]? = hiddenL[i]? := by
  have h0 : 0 ≠ i := by omega
  constructor
  · simp [mapSessionStateGru, List.getElem?_set_ne h0]
  · simp [mapSessionStateLstm, List.getElem?_set_ne h0]

/-- Witness for C7 at index 1 of a two-layer state. -/
theorem c7_bridge_witness :
    ((mapSessionStateGru (fun x : ℤ => x + 1) false [1, 2] 0).1)[1]? =
      ([1, 2] : List ℤ)[1]? ∧
    ((mapSessionStateLstm (fun x : ℤ => x + 1) false [(1, 2), (3, 4)] (0, 0)).1)[1]? =
      ([(1, 2), (3, 4)] : List (ℤ × ℤ))[1]? :=
  c7_bridge_writes_only_layer_zero (fun x => x + 1) false [1, 2] 0
    [(1, 2), (3, 4)] (0, 0) 1 (by decide)

/-- C8 counterexample: the claim says an unrecognized cell_type raises an
error at construction; constructing with "simple_rnn" (neither known type)
succeeds, yielding the paired-state default, so no error is raised. -/
theorem c8_unknown_cell_type_no_error_cx :
    hredInit "simple_rnn" = Except.ok CellKind.pairedKind := by
  simp [hredInit, rnnCellKind]

/-- C8 (amended): constructing the model with a cell_type that is not "gru"
does not raise; construction succeeds and the unknown type is handled by the
paired-state (non-gru) default path. -/
theorem c8_unknown_cell_type_defaults_paired (cellType : String)
    (h : cellType ≠ "gru") :
    hredInit cellType = Except.ok CellKind.pairedKind := by
  simp [hredInit, rnnCellKind, h]

/-- Witness for C8 at the concrete unknown cell type "rnn_tanh". -/
theorem c8_unknown_cell_type_witness :
    "rnn_tanh" ≠ "gru" ∧ hredInit "rnn_tanh" = Except.ok CellKind.pairedKind :=
  ⟨by decide, c8_unknown_cell_type_defaults_paired "rnn_tanh" (by decide)⟩

/-- C9: two forward calls on the same model with identical inputs give equal
outputs regardless of the encoder and decoder state left over from earlier
calls: forward resets both states for the batch before any computation, so
the result does not depend on the pre-call state fields. -/
theorem c9_forward_independent_of_leftover_state {δ : Type} (m : HREDSim δ)
    (s1 s2 : δ) (h1 h2 : List δ) (encoderInputs : List (List (List ℤ)))
    (decoderInputs : List (List ℤ)) (numBeams : ℕ) :
    hredForward { m with encoderState := s1, decoderHidden := h1 }
        encoderInputs decoderInputs numBeams =
      hredForward { m with encoderState := s2, decoderHidden := h2 }
        encoderInputs decoderInputs numBeams := rfl

/-- C10: a freshly constructed model has pr_force = 1.0, so until the caller
mutates it every training-mode forward invokes the decoder with num_beams =
0, pure teacher forcing. -/
theorem c10_fresh_model_teacher_forces :
    initPrForce = 1 ∧ ∀ numBeams : ℕ, decodingNumBeams true initPrForce numBeams = 0 := by
  refine ⟨rfl, fun numBeams => ?_⟩
  simp [decodingNumBeams, initPrForce]

end QuickNLP
